import Mathlib

/-!
Shallow embedding of the IGFinder2.0 repository (files `fetch_genes.py` and
`IGFinder2.0.py`) together with proofs about its windowed fetching, batched
lookup and intronless/multi-exonic classification logic.

Network interaction is modelled by explicit oracles: a GET/POST either yields a
`Resp` (an HTTP status code together with the decoded JSON body) or, when the
underlying call raised before producing a response, `Option.none`.  Python
dictionaries keyed by gene id are modelled as association lists, and
`dict.get(key, default)` as an `Option` field read with `Option.getD`.
-/

/-- An HTTP response: status code and decoded body.  `requests` exposes
`response.ok`, which is `status_code < 400`. -/
structure Resp (α : Type) where
  status : Nat
  body : α
deriving DecidableEq

/-- `response.ok` of the `requests` library: true iff the status is below 400. -/
def respOk (status : Nat) : Bool :=
  status < 400

/-- The exception raised by `response.raise_for_status()`, carrying the
non-success HTTP status. -/
inductive HTTPError where
  | httpError (status : Nat)
deriving DecidableEq

/-- A gene stub as returned by the overlap/region endpoint: only its `id` is
consumed downstream (`get_info` reads `g["id"]`). -/
structure GeneStub where
  id : String
deriving DecidableEq

/-- A transcript record; `IGFinder2.0.py` reads `transcript.get('Exon', [])`,
so the exon list is optional with default `[]`.  Exon entries are opaque. -/
structure TranscriptRecord where
  Exon : Option (List Unit)
deriving DecidableEq

/-- A full gene record as returned by the batch lookup endpoint.
`classify_genes` indexes `id`, `start`, `end`, `seq_region_name` directly and
uses `gene.get('biotype', 'NA')` and `gene.get('Transcript', [])`. -/
structure GeneRecord where
  id : String
  start : Int
  «end» : Int
  seq_region_name : String
  biotype : Option String
  Transcript : Option (List TranscriptRecord)
deriving DecidableEq

/-- One tuple appended to the `intronless` / `multiexonic` lists in
`classify_genes`: `(gene_id, start, end, chr_, biotype, type)`. -/
structure ClassifiedRow where
  id : String
  start : Int
  «end» : Int
  chr : String
  biotype : String
  type : String
deriving DecidableEq

/-- A row of the final DataFrame, after `df['length'] = df['end'] - df['start']`. -/
structure OutRow where
  id : String
  start : Int
  «end» : Int
  chr : String
  biotype : String
  type : String
  length : Int
deriving DecidableEq

/-- A top-level region from the `/info/assembly` response: `name`, `length`
and the optional `coord_system` read via `region.get("coord_system")`. -/
structure Region where
  name : String
  length : Nat
  coord_system : Option String
deriving DecidableEq

/-- Observable outcome of a `main` invocation, or of the whole script run:
the process exit code produced, whether the output table was written, and
whether an error-level log message was emitted. -/
structure MainOutcome where
  exitCode : Nat
  outputWritten : Bool
  errorLogged : Bool
deriving DecidableEq

/-- `WINDOW_SIZE = 1000000` in `fetch_genes.py`. -/
def WINDOW_SIZE : Nat := 1000000

/-- Python's `range(start, stop, step)` for nonnegative arguments: the values
`start + k*step` for `k < ceil((stop - start) / step)`. -/
def pyRange (start stop step : Nat) : List Nat :=
  (List.range ((stop - start + step - 1) / step)).map (fun k => start + k * step)

/-- The coordinate windows queried by `genes_in_chrom`: for each
`start in range(1, length, W)` the window `(start, min (start + W - 1) length)`. -/
def windows (length W : Nat) : List (Nat × Nat) :=
  (pyRange 1 length W).map (fun start => (start, min (start + W - 1) length))

/-- `ensembl_get`: on a non-ok response it logs and calls
`response.raise_for_status()`, raising an error carrying the status; on an ok
response it returns the decoded body. -/
def ensembl_get {α : Type} (response : Resp α) : Except HTTPError α :=
  if respOk response.status then Except.ok response.body
  else Except.error (HTTPError.httpError response.status)

/-- `genes_in_chrom`: iterate over the windows of `[1, length]`; each window's
overlap query either yields stubs (`some`) or raises (`none`); a raising window
is logged and skipped (`continue`) and the loop accumulates the rest. -/
def genes_in_chrom (fetch : Nat × Nat → Option (List GeneStub)) (length W : Nat) :
    List GeneStub :=
  (windows length W).foldl
    (fun all_genes w =>
      match fetch w with
      | some genes => all_genes ++ genes
      | none => all_genes)
    []

/-- Fuel-indexed worker for `chunks_of`; the fuel (initially the list length)
only ensures structural termination and is never exhausted on a sufficient
budget. -/
def chunksOfFuel (chunk_size : Nat) : Nat → List α → List (List α)
  | _, [] => []
  | 0, _ :: _ => []
  | fuel + 1, x :: xs =>
    (x :: xs).take chunk_size :: chunksOfFuel chunk_size fuel ((x :: xs).drop chunk_size)

/-- `chunks_of` from `fetch_genes.py`: repeatedly take `chunk_size` elements
from the iterator until it is empty (with `chunk_size = 0` the first `head`
yields nothing and the loop breaks at once). -/
def chunks_of (iterable : List α) (chunk_size : Nat) : List (List α) :=
  if chunk_size = 0 then [] else chunksOfFuel chunk_size iterable.length iterable

/-- `get_lookup_batch`: on a non-ok response for the batch POST it logs a
warning and returns the empty mapping; otherwise the decoded id-keyed mapping. -/
def get_lookup_batch (response : Resp (List (String × GeneRecord))) :
    List (String × GeneRecord) :=
  if respOk response.status then response.body else []

/-- `get_info`: for each 50-id chunk, POST the ids; if the call raises
(`none`) log a warning, sleep and continue; otherwise extend the accumulator
with `data.values()` of the (possibly empty) returned mapping. -/
def get_info (post : List String → Option (Resp (List (String × GeneRecord))))
    (genes : List GeneStub) : List GeneRecord :=
  (chunks_of genes 50).foldl
    (fun all_info chunk =>
      match post (chunk.map (fun g => g.id)) with
      | some response => all_info ++ (get_lookup_batch response).map Prod.snd
      | none => all_info)
    []

/-- The id lists posted by `get_info`, one lookup call per 50-id chunk,
independent of any call's outcome (no retry). -/
def get_info_requests (genes : List GeneStub) : List (List String) :=
  (chunks_of genes 50).map (fun chunk => chunk.map (fun g => g.id))

/-- `chromosomes_info`: GET the assembly metadata (a failing GET propagates),
keep only top-level regions whose `coord_system` is `"chromosome"`, and return
their names and lengths. -/
def chromosomes_info (response : Resp (List Region)) :
    Except HTTPError (List (String × Nat)) :=
  match ensembl_get response with
  | Except.error e => Except.error e
  | Except.ok regions =>
      Except.ok ((regions.filter (fun r => r.coord_system == some "chromosome")).map
        (fun r => (r.name, r.length)))

/-- `is_intronless` from `IGFinder2.0.py`: a transcript is intronless iff
`len(transcript.get('Exon', [])) == 1`. -/
def is_intronless (transcript : TranscriptRecord) : Bool :=
  (transcript.Exon.getD []).length == 1

/-- The tuple `(gene_id, start, end, chr_, biotype, type)` built inside the
`classify_genes` loop, with `biotype = gene.get('biotype', 'NA')`. -/
def geneRow (gene : GeneRecord) (ty : String) : ClassifiedRow :=
  { id := gene.id
    start := gene.start
    «end» := gene.«end»
    chr := gene.seq_region_name
    biotype := gene.biotype.getD "NA"
    type := ty }

/-- The loop of `classify_genes`: build the `intronless` and `multiexonic`
lists in input order.  A gene with some single-exon transcript goes to
`intronless` only when its id is not in `utr_introns` (otherwise nothing is
appended); a gene with no single-exon transcript goes to `multiexonic`. -/
def classifyLists : List GeneRecord → List String → List ClassifiedRow × List ClassifiedRow
  | [], _ => ([], [])
  | gene :: rest, utr_introns =>
    if (gene.Transcript.getD []).any is_intronless then
      if gene.id ∈ utr_introns then
        classifyLists rest utr_introns
      else
        (geneRow gene "intronless" :: (classifyLists rest utr_introns).1,
         (classifyLists rest utr_introns).2)
    else
      ((classifyLists rest utr_introns).1,
       geneRow gene "multi-exonic" :: (classifyLists rest utr_introns).2)

/-- `df['length'] = df['end'] - df['start']`, applied to one row. -/
def addLength (row : ClassifiedRow) : OutRow :=
  { id := row.id
    start := row.start
    «end» := row.«end»
    chr := row.chr
    biotype := row.biotype
    type := row.type
    length := row.«end» - row.start }

/-- `classify_genes`: concatenate the intronless rows (in input order) with
the multi-exonic rows (in input order) into the DataFrame, then compute the
derived `length` column on every row. -/
def classify_genes (gene_info : List GeneRecord) (utr_introns : List String) :
    List OutRow :=
  ((classifyLists gene_info utr_introns).1 ++ (classifyLists gene_info utr_introns).2).map
    addLength

/-- `valid_chroms = [str(i) for i in range(1, 23)]` in `fetch_all_genes`. -/
def valid_chroms : List String :=
  (List.range 22).map (fun i => toString (i + 1))

/-- `fetch_all_genes`: get the chromosome table (a failing assembly GET
propagates), keep chromosomes named "1".."22", and concatenate the per-
chromosome window scans. -/
def fetch_all_genes (assemblyResp : Resp (List Region))
    (windowFetch : String → Nat × Nat → Option (List GeneStub)) :
    Except HTTPError (List GeneStub) :=
  match chromosomes_info assemblyResp with
  | Except.error e => Except.error e
  | Except.ok chrom_data =>
      Except.ok
        ((chrom_data.filter (fun kv => valid_chroms.contains kv.1)).foldl
          (fun all_genes kv =>
            all_genes ++ genes_in_chrom (windowFetch kv.1) kv.2 WINDOW_SIZE)
          [])

/-- The first `main` of `IGFinder2.0.py` (lines 121-156), executed by the
first `if __name__ == '__main__'` guard at line 155.  A missing UTR file logs
an error and calls `sys.exit(1)`, terminating the process before any network
activity.  Otherwise the whole pipeline runs inside `try:`; any exception (in
particular the HTTP error raised by `ensembl_get`) is caught by the final
`except`, logged with `logging.exception`, and swallowed, after which this
`main` returns normally — it contributes exit code 0 itself, and the script
file keeps executing past line 156.  An empty lookup result or an empty
DataFrame logs a warning and returns without writing. -/
def main_run (utrFileExists : Bool) (utr_introns : List String)
    (assemblyResp : Resp (List Region))
    (windowFetch : String → Nat × Nat → Option (List GeneStub))
    (post : List String → Option (Resp (List (String × GeneRecord)))) :
    MainOutcome :=
  if utrFileExists then
    match fetch_all_genes assemblyResp windowFetch with
    | Except.error _ => { exitCode := 0, outputWritten := false, errorLogged := true }
    | Except.ok all_genes =>
        if (get_info post all_genes).isEmpty then
          { exitCode := 0, outputWritten := false, errorLogged := false }
        else if (classify_genes (get_info post all_genes) utr_introns).isEmpty then
          { exitCode := 0, outputWritten := false, errorLogged := false }
        else
          { exitCode := 0, outputWritten := true, errorLogged := false }
  else
    { exitCode := 1, outputWritten := false, errorLogged := true }

/-- The second `main` of `IGFinder2.0.py` (lines 232-253), executed by the
second `if __name__ == "__main__"` guard at line 252 after the first
invocation returns.  It re-runs `fetch_all_genes` with no `try`/`except`
around it, so the HTTP error raised by `ensembl_get` on a non-success
required GET reaches the interpreter uncaught and the process exits with
code 1 (after `logging.error` in `ensembl_get` and the printed traceback).
On success it classifies the fetched stub records and — under the default
CLI flags, where `--output` is a non-empty path and `--stats`/`--plots` are
off — unconditionally writes the output table (`if args.output:` with no
emptiness guard) and exits normally. -/
def main2_run (assemblyResp : Resp (List Region))
    (windowFetch : String → Nat × Nat → Option (List GeneStub)) : MainOutcome :=
  match fetch_all_genes assemblyResp windowFetch with
  | Except.error _ => { exitCode := 1, outputWritten := false, errorLogged := true }
  | Except.ok _ => { exitCode := 0, outputWritten := true, errorLogged := false }

/-- One run of the whole script `IGFinder2.0.py`.  Module execution performs
the first `main` invocation (line 155), then — unless that invocation already
terminated the process via `sys.exit(1)` on a missing UTR file — continues
past line 156, redefines `main`, and performs the second invocation (line
252), whose outcome determines the final exit code.  The external service is
deterministic within a run: the same assembly GET is answered by
`assemblyResp` in both invocations.  Output counts as written if either
invocation wrote it; an error counts as logged if either invocation logged
one. -/
def script_run (utrFileExists : Bool) (utr_introns : List String)
    (assemblyResp : Resp (List Region))
    (windowFetch : String → Nat × Nat → Option (List GeneStub))
    (post : List String → Option (Resp (List (String × GeneRecord)))) :
    MainOutcome :=
  if utrFileExists then
    { exitCode := (main2_run assemblyResp windowFetch).exitCode
      outputWritten :=
        (main_run true utr_introns assemblyResp windowFetch post).outputWritten ||
          (main2_run assemblyResp windowFetch).outputWritten
      errorLogged :=
        (main_run true utr_introns assemblyResp windowFetch post).errorLogged ||
          (main2_run assemblyResp windowFetch).errorLogged }
  else
    { exitCode := 1, outputWritten := false, errorLogged := true }

/-! ### Helper lemmas about the classifier -/

/-- The two lists built by the `classify_genes` loop are the filters of the
input in input order: intronless genes not in the exception set, and genes
with no single-exon transcript. -/
theorem classifyLists_eq (genes : List GeneRecord) (utr : List String) :
    classifyLists genes utr =
      ((genes.filter
          (fun g => (g.Transcript.getD []).any is_intronless && !decide (g.id ∈ utr))).map
          (fun g => geneRow g "intronless"),
       (genes.filter (fun g => !(g.Transcript.getD []).any is_intronless)).map
          (fun g => geneRow g "multi-exonic")) := by
  induction genes with
  | nil => simp [classifyLists]
  | cons g rest ih =>
    by_cases h1 : (g.Transcript.getD []).any is_intronless = true
    · by_cases h2 : g.id ∈ utr
      · simp [classifyLists, h1, h2, ih]
      · simp [classifyLists, h1, h2, ih]
    · simp only [Bool.not_eq_true] at h1
      simp [classifyLists, h1, ih]

/-- C5.  The classifier's output is the intronless rows of the input, in input
order, followed by the multi-exonic rows, in input order (a two-pass ordering,
not a stable merge by original position). -/
theorem classify_genes_two_pass (genes : List GeneRecord) (utr : List String) :
    classify_genes genes utr =
      ((genes.filter
          (fun g => (g.Transcript.getD []).any is_intronless && !decide (g.id ∈ utr))).map
          (fun g => addLength (geneRow g "intronless"))) ++
      ((genes.filter (fun g => !(g.Transcript.getD []).any is_intronless)).map
          (fun g => addLength (geneRow g "multi-exonic"))) := by
  simp [classify_genes, classifyLists_eq, Function.comp_def]

/-- C9.  Every row of the classifier's output, in both categories, satisfies
`length = end - start`; the derived field is computed by the final map applied
after the classification split. -/
theorem classify_genes_length_field (genes : List GeneRecord) (utr : List String)
    (row : OutRow) (hrow : row ∈ classify_genes genes utr) :
    row.length = row.«end» - row.start := by
  simp only [classify_genes, List.mem_map] at hrow
  obtain ⟨r, _, rfl⟩ := hrow
  rfl

/-- Witness for C9 at a concrete one-gene input. -/
theorem classify_genes_length_field_witness :
    ({ id := "g0", start := 7, «end» := 19, chr := "2", biotype := "NA",
       type := "intronless", length := 12 } : OutRow).length =
      ({ id := "g0", start := 7, «end» := 19, chr := "2", biotype := "NA",
         type := "intronless", length := 12 } : OutRow).«end» -
      ({ id := "g0", start := 7, «end» := 19, chr := "2", biotype := "NA",
         type := "intronless", length := 12 } : OutRow).start :=
  classify_genes_length_field
    [{ id := "g0", start := 7, «end» := 19, seq_region_name := "2", biotype := none,
       Transcript := some [{ Exon := some [()] }] }] [] _ (by decide)

/-- C4.  A gene with some single-exon transcript and id outside the exception
set yields an intronless row; a gene whose every transcript has at least two
exons yields a multi-exonic row, with no condition on the exception set. -/
theorem classify_genes_structural (genes : List GeneRecord) (utr : List String)
    (g : GeneRecord) (hg : g ∈ genes) :
    ((g.Transcript.getD []).any is_intronless = true → g.id ∉ utr →
      addLength (geneRow g "intronless") ∈ classify_genes genes utr) ∧
    ((∀ t ∈ g.Transcript.getD [], 2 ≤ (t.Exon.getD []).length) →
      addLength (geneRow g "multi-exonic") ∈ classify_genes genes utr) := by
  constructor
  · intro h1 h2
    rw [classify_genes_two_pass]
    refine List.mem_append_left _ (List.mem_map_of_mem _ (List.mem_filter.mpr ⟨hg, ?_⟩))
    simp [h1, h2]
  · intro h
    rw [classify_genes_two_pass]
    refine List.mem_append_right _ (List.mem_map_of_mem _ (List.mem_filter.mpr ⟨hg, ?_⟩))
    simp only [Bool.not_eq_true', List.any_eq_false]
    intro t ht
    have h2 := h t ht
    simp [is_intronless]
    omega

/-- Witness for C4 at concrete inputs: a one-exon gene is classified
intronless, a gene whose only transcript has two exons multi-exonic. -/
theorem classify_genes_structural_witness :
    addLength (geneRow
      { id := "gA", start := 1, «end» := 5, seq_region_name := "3", biotype := none,
        Transcript := some [{ Exon := some [()] }] } "intronless") ∈
      classify_genes
        [{ id := "gA", start := 1, «end» := 5, seq_region_name := "3", biotype := none,
           Transcript := some [{ Exon := some [()] }] }] ["other"] ∧
    addLength (geneRow
      { id := "gB", start := 2, «end» := 9, seq_region_name := "3", biotype := none,
        Transcript := some [{ Exon := some [(), ()] }] } "multi-exonic") ∈
      classify_genes
        [{ id := "gB", start := 2, «end» := 9, seq_region_name := "3", biotype := none,
           Transcript := some [{ Exon := some [(), ()] }] }] ["gB"] :=
  ⟨(classify_genes_structural _ ["other"] _ (by decide)).1 (by decide) (by decide),
   (classify_genes_structural _ ["gB"] _ (by decide)).2 (by decide)⟩

/-- C10.  A gene whose `Transcript` field is absent or an empty list has no
single-exon transcript, so the loop's `else` branch fires: it is classified
multi-exonic and kept in the output, whatever the exception set contains. -/
theorem classify_genes_empty_transcripts (genes : List GeneRecord) (utr : List String)
    (g : GeneRecord) (hg : g ∈ genes) (ht : g.Transcript.getD [] = []) :
    addLength (geneRow g "multi-exonic") ∈ classify_genes genes utr := by
  rw [classify_genes_two_pass]
  refine List.mem_append_right _ (List.mem_map_of_mem _ (List.mem_filter.mpr ⟨hg, ?_⟩))
  simp [ht]

/-- Witness for C10: a gene with `Transcript = none` and another with
`Transcript = some []`, both with their ids in the exception set. -/
theorem classify_genes_empty_transcripts_witness :
    addLength (geneRow
      { id := "gN", start := 4, «end» := 40, seq_region_name := "5", biotype := none,
        Transcript := none } "multi-exonic") ∈
      classify_genes
        [{ id := "gN", start := 4, «end» := 40, seq_region_name := "5", biotype := none,
           Transcript := none }] ["gN"] ∧
    addLength (geneRow
      { id := "gE", start := 6, «end» := 60, seq_region_name := "5", biotype := none,
        Transcript := some [] } "multi-exonic") ∈
      classify_genes
        [{ id := "gE", start := 6, «end» := 60, seq_region_name := "5", biotype := none,
           Transcript := some [] }] ["gE"] :=
  ⟨classify_genes_empty_transcripts _ ["gN"] _ (by decide) (by decide),
   classify_genes_empty_transcripts _ ["gE"] _ (by decide) (by decide)⟩

/-- A gene that is structurally intronless (one transcript with exactly one
exon) and whose id is in the UTR-exception set. -/
def utrGene : GeneRecord :=
  { id := "ENSG1", start := 100, «end» := 250, seq_region_name := "1",
    biotype := some "protein_coding", Transcript := some [{ Exon := some [()] }] }

/-- C1 counterexample.  `utrGene` is structurally intronless and its id is in
the exception set, yet `classify_genes` produces no row at all for it: the
inner `if gene_id not in utr_introns` has no `else`, so the gene is dropped,
not reclassified as multi-exonic. -/
theorem classify_utr_exception_cex :
    (utrGene.Transcript.getD []).any is_intronless = true ∧
    utrGene.id ∈ ["ENSG1"] ∧
    classify_genes [utrGene] ["ENSG1"] = [] := by
  decide

/-- C1 amended.  A structurally intronless gene whose id is in the exception
set is excluded from the output entirely: it contributes no row (in either
category) and the classification of the remaining genes is unchanged. -/
theorem classify_utr_exception_drops (g : GeneRecord) (rest : List GeneRecord)
    (utr : List String) (h1 : (g.Transcript.getD []).any is_intronless = true)
    (h2 : g.id ∈ utr) :
    classify_genes (g :: rest) utr = classify_genes rest utr := by
  simp [classify_genes, classifyLists, h1, h2]

/-- Witness for the amended C1 at the concrete exception-listed gene. -/
theorem classify_utr_exception_drops_witness :
    classify_genes [utrGene] ["ENSG1"] = classify_genes [] ["ENSG1"] :=
  classify_utr_exception_drops utrGene [] ["ENSG1"] (by decide) (by decide)

/-! ### Helper lemmas about `chunks_of` and the batch resolver -/

/-- On a fuel budget at least the list length, the chunks concatenate back to
the original list. -/
theorem chunksOfFuel_flatten {α : Type} (n : Nat) (hn : 0 < n) :
    ∀ (fuel : Nat) (l : List α), l.length ≤ fuel → (chunksOfFuel n fuel l).flatten = l := by
  intro fuel
  induction fuel with
  | zero =>
    intro l hl
    have hnil : l = [] := List.length_eq_zero.mp (Nat.le_zero.mp hl)
    subst hnil
    simp [chunksOfFuel]
  | succ fuel ih =>
    intro l hl
    match l with
    | [] => simp [chunksOfFuel]
    | x :: xs =>
      simp only [chunksOfFuel, List.flatten_cons]
      rw [ih ((x :: xs).drop n) ?_]
      · exact List.take_append_drop n (x :: xs)
      · simp only [List.length_drop, List.length_cons]
        simp only [List.length_cons] at hl
        omega

/-- Every chunk produced by the fuel worker has at most `n` elements. -/
theorem chunksOfFuel_length_le {α : Type} (n : Nat) :
    ∀ (fuel : Nat) (l : List α), ∀ c ∈ chunksOfFuel n fuel l, c.length ≤ n := by
  intro fuel
  induction fuel with
  | zero =>
    intro l c hc
    match l with
    | [] => simp [chunksOfFuel] at hc
    | x :: xs => simp [chunksOfFuel] at hc
  | succ fuel ih =>
    intro l c hc
    match l with
    | [] => simp [chunksOfFuel] at hc
    | x :: xs =>
      simp only [chunksOfFuel, List.mem_cons] at hc
      rcases hc with rfl | hc
      · simp only [List.length_take]
        omega
      · exact ih _ c hc

/-- On a sufficient fuel budget, every chunk except possibly the last has
exactly `n` elements. -/
theorem chunksOfFuel_dropLast {α : Type} (n : Nat) (hn : 0 < n) :
    ∀ (fuel : Nat) (l : List α), l.length ≤ fuel →
      ∀ c ∈ (chunksOfFuel n fuel l).dropLast, c.length = n := by
  intro fuel
  induction fuel with
  | zero =>
    intro l hl c hc
    have hnil : l = [] := List.length_eq_zero.mp (Nat.le_zero.mp hl)
    subst hnil
    simp [chunksOfFuel] at hc
  | succ fuel ih =>
    intro l hl c hc
    match l with
    | [] => simp [chunksOfFuel] at hc
    | x :: xs =>
      simp only [chunksOfFuel] at hc
      cases hrest : chunksOfFuel n fuel ((x :: xs).drop n) with
      | nil => rw [hrest] at hc; simp at hc
      | cons r rs =>
        rw [hrest] at hc
        simp only [List.dropLast_cons₂, List.mem_cons] at hc
        rcases hc with rfl | hc
        · have hdrop : (x :: xs).drop n ≠ [] := by
            intro hdropnil
            rw [hdropnil] at hrest
            simp [chunksOfFuel] at hrest
          have hlen : n < (x :: xs).length := by
            by_contra hcon
            exact hdrop (List.drop_eq_nil_of_le (Nat.le_of_not_lt hcon))
          simp only [List.length_take]
          omega
        · rw [← hrest] at hc
          refine ih ((x :: xs).drop n) ?_ c hc
          simp only [List.length_drop, List.length_cons]
          simp only [List.length_cons] at hl
          omega

/-- The chunk-length profile depends only on the length of the input list. -/
theorem chunksOfFuel_map_length {α β : Type} (n : Nat) :
    ∀ (fuel : Nat) (l₁ : List α) (l₂ : List β), l₁.length = l₂.length →
      (chunksOfFuel n fuel l₁).map List.length =
        (chunksOfFuel n fuel l₂).map List.length := by
  intro fuel
  induction fuel with
  | zero =>
    intro l₁ l₂ h
    match l₁, l₂ with
    | [], [] => rfl
    | [], y :: ys => simp at h
    | x :: xs, [] => simp at h
    | x :: xs, y :: ys => simp [chunksOfFuel]
  | succ fuel ih =>
    intro l₁ l₂ h
    match l₁, l₂ with
    | [], [] => rfl
    | [], y :: ys => simp at h
    | x :: xs, [] => simp at h
    | x :: xs, y :: ys =>
      simp only [List.length_cons] at h
      simp only [chunksOfFuel, List.map_cons]
      congr 1
      · simp only [List.length_take, List.length_cons, h]
      · refine ih _ _ ?_
        simp only [List.length_drop, List.length_cons, h]

/-- `chunks_of` with a positive chunk size concatenates back to the input. -/
theorem chunks_of_flatten {α : Type} (l : List α) (n : Nat) (hn : 0 < n) :
    (chunks_of l n).flatten = l := by
  unfold chunks_of
  rw [if_neg (Nat.pos_iff_ne_zero.mp hn)]
  exact chunksOfFuel_flatten n hn l.length l (le_refl _)

/-- Accumulating `acc ++ g a` over a list with `foldl` concatenates the
per-element contributions after the initial accumulator. -/
theorem foldl_append_eq_flatten {α β : Type} (g : α → List β) :
    ∀ (l : List α) (acc : List β),
      l.foldl (fun acc' a => acc' ++ g a) acc = acc ++ (l.map g).flatten := by
  intro l
  induction l with
  | nil => intro acc; simp
  | cons a l ih =>
    intro acc
    simp only [List.foldl_cons, List.map_cons, List.flatten_cons]
    rw [ih]
    simp [List.append_assoc]

set_option maxRecDepth 4000 in
/-- C6.  `get_info` splits its input into consecutive 50-element batches that
concatenate back to the input (so order is preserved within and across
batches), every batch has at most 50 ids, every batch except possibly the
last has exactly 50, and an input of 120 stubs yields exactly the 3 lookup
calls of sizes 50, 50 and 20. -/
theorem get_info_batching :
    (∀ (genes : List GeneStub),
      (chunks_of genes 50).flatten = genes ∧
      (∀ c ∈ chunks_of genes 50, c.length ≤ 50) ∧
      (∀ c ∈ (chunks_of genes 50).dropLast, c.length = 50)) ∧
    (∀ (genes : List GeneStub), genes.length = 120 →
      (get_info_requests genes).map List.length = [50, 50, 20] ∧
      (get_info_requests genes).length = 3) := by
  have hchunks : ∀ (genes : List GeneStub),
      chunks_of genes 50 = chunksOfFuel 50 genes.length genes := by
    intro genes
    unfold chunks_of
    rw [if_neg (by omega)]
  constructor
  · intro genes
    refine ⟨chunks_of_flatten genes 50 (by omega), ?_, ?_⟩
    · rw [hchunks]
      exact chunksOfFuel_length_le 50 genes.length genes
    · rw [hchunks]
      exact chunksOfFuel_dropLast 50 (by omega) genes.length genes (le_refl _)
  · intro genes h120
    have hlen : (get_info_requests genes).map List.length =
        (chunks_of genes 50).map List.length := by
      simp [get_info_requests, List.map_map, Function.comp_def]
    have hshape : (chunks_of genes 50).map List.length =
        (chunks_of (List.replicate 120 ()) 50).map List.length := by
      rw [hchunks, h120]
      unfold chunks_of
      rw [if_neg (by omega)]
      rw [List.length_replicate]
      exact chunksOfFuel_map_length 50 120 genes (List.replicate 120 ())
        (by rw [h120, List.length_replicate])
    have hmaps : (get_info_requests genes).map List.length = [50, 50, 20] := by
      rw [hlen, hshape]
      decide
    refine ⟨hmaps, ?_⟩
    have hcount := List.length_map (get_info_requests genes) List.length
    rw [hmaps] at hcount
    exact hcount.symm

/-- Witness for C6 at a concrete 120-stub input. -/
theorem get_info_batching_witness :
    (get_info_requests (List.replicate 120 { id := "g" })).map List.length = [50, 50, 20] :=
  (get_info_batching.2 (List.replicate 120 { id := "g" }) (by simp)).1

/-- C7.  A batch POST with a non-success status returns the empty mapping
instead of raising, so that batch contributes no records; `get_info` is the
concatenation of the per-batch contributions (a raising batch contributes
nothing and later batches are still processed), and the issued requests are
exactly one per batch, independent of any outcome, so a failed batch is never
retried. -/
theorem get_info_failed_batch
    (post : List String → Option (Resp (List (String × GeneRecord))))
    (genes : List GeneStub) :
    (∀ (r : Resp (List (String × GeneRecord))), respOk r.status = false →
      get_lookup_batch r = []) ∧
    get_info post genes =
      ((chunks_of genes 50).map (fun chunk =>
        match post (chunk.map (fun g => g.id)) with
        | some r => (get_lookup_batch r).map Prod.snd
        | none => [])).flatten ∧
    get_info_requests genes =
      (chunks_of genes 50).map (fun chunk => chunk.map (fun g => g.id)) := by
  refine ⟨?_, ?_, rfl⟩
  · intro r hr
    simp [get_lookup_batch, hr]
  · unfold get_info
    have hstep : (fun (all_info : List GeneRecord) (chunk : List GeneStub) =>
        match post (chunk.map (fun g => g.id)) with
        | some response => all_info ++ (get_lookup_batch response).map Prod.snd
        | none => all_info) =
        fun (all_info : List GeneRecord) (chunk : List GeneStub) => all_info ++
          (match post (chunk.map (fun g => g.id)) with
           | some r => (get_lookup_batch r).map Prod.snd
           | none => []) := by
      funext acc chunk
      cases post (chunk.map (fun g => g.id)) <;> simp
    rw [hstep, foldl_append_eq_flatten]
    simp

/-- Witness for C7 at a concrete input: two batches, the first POST returning
status 500 (empty mapping, no records), the second raising; both batches are
dropped, the result is empty, and both requests were issued. -/
theorem get_info_failed_batch_witness :
    get_info (fun ids => if ids = List.replicate 50 "a" then some ⟨500, [("x",
      { id := "x", start := 0, «end» := 1, seq_region_name := "1", biotype := none,
        Transcript := none })]⟩ else none)
      (List.replicate 50 { id := "a" } ++ List.replicate 50 { id := "b" }) =
      ((chunks_of (List.replicate 50 ({ id := "a" } : GeneStub) ++
          List.replicate 50 { id := "b" }) 50).map (fun chunk =>
        match (fun ids => if ids = List.replicate 50 "a" then some (⟨500, [("x",
          { id := "x", start := 0, «end» := 1, seq_region_name := "1", biotype := none,
            Transcript := none })]⟩ : Resp (List (String × GeneRecord))) else none)
            (chunk.map (fun g => g.id)) with
        | some r => (get_lookup_batch r).map Prod.snd
        | none => [])).flatten :=
  (get_info_failed_batch _ _).2.1

/-- C8.  `genes_in_chrom` never aborts on a failing window: its result is the
concatenation, in window order, of the stubs of exactly the successful
windows (a raising window contributes the empty list and the scan goes on). -/
theorem genes_in_chrom_best_effort (fetch : Nat × Nat → Option (List GeneStub))
    (L W : Nat) :
    genes_in_chrom fetch L W = ((windows L W).map (fun w => (fetch w).getD [])).flatten := by
  unfold genes_in_chrom
  have hstep : (fun (all_genes : List GeneStub) w =>
      match fetch w with
      | some genes => all_genes ++ genes
      | none => all_genes) =
      fun all_genes w => all_genes ++ ((fetch w).getD []) := by
    funext acc w
    cases fetch w <;> simp
  rw [hstep, foldl_append_eq_flatten]
  simp

/-! ### Window coverage of `genes_in_chrom` -/

/-- How many queried windows of `genes_in_chrom` contain coordinate `c`. -/
def coveringWindows (L W c : Nat) : Nat :=
  ((windows L W).filter (fun w => decide (w.1 ≤ c) && decide (c ≤ w.2))).length

/-- Filtering a mapped list keeps as many elements as filtering the original
list by the composed predicate. -/
theorem length_filter_of_map {α β : Type} (f : α → β) (p : β → Bool) (l : List α) :
    ((l.map f).filter p).length = (l.filter (fun a => p (f a))).length := by
  induction l with
  | nil => rfl
  | cons a l ih =>
    simp only [List.map_cons, List.filter_cons]
    cases hpa : p (f a) <;> simp [ih]

/-- A predicate holding for exactly one value below `n` filters `range n` to a
single element. -/
theorem length_filter_range_unique (p : Nat → Bool) (n k₀ : Nat) (hk : k₀ < n)
    (hp : ∀ k, p k = true ↔ k = k₀) : ((List.range n).filter p).length = 1 := by
  induction n with
  | zero => omega
  | succ n ih =>
    rw [List.range_succ, List.filter_append, List.length_append]
    by_cases hn : n = k₀
    · subst hn
      have h1 : (List.range n).filter p = [] := by
        rw [List.filter_eq_nil_iff]
        intro a ha
        rw [List.mem_range] at ha
        rw [hp]
        omega
      rw [h1]
      simp [(hp n).mpr rfl]
    · have hpn : p n = false := by
        cases hv : p n with
        | false => rfl
        | true => exact absurd ((hp n).mp hv) hn
      rw [ih (by omega)]
      simp [hpn]

/-- Coordinate `c` of `[1, L]` lies in window `k` exactly when `k` is the
0-based index `(c-1)/W`. -/
theorem window_hit_iff (W L c k : Nat) (hW : 0 < W) (hc : 1 ≤ c) (hcL : c ≤ L) :
    (1 + k * W ≤ c ∧ c ≤ min (1 + k * W + W - 1) L) ↔ k = (c - 1) / W := by
  have hend : 1 + k * W + W - 1 = k * W + W := by omega
  rw [hend]
  constructor
  · rintro ⟨h1, h2⟩
    have h2' : c ≤ k * W + W := le_trans h2 (min_le_left _ _)
    have hle : k ≤ (c - 1) / W := (Nat.le_div_iff_mul_le hW).mpr (by omega)
    have hlt : (c - 1) / W < k + 1 := (Nat.div_lt_iff_lt_mul hW).mpr (by
      rw [Nat.succ_mul]
      omega)
    omega
  · rintro rfl
    have hmul : (c - 1) / W * W ≤ c - 1 := Nat.div_mul_le_self (c - 1) W
    have hdm := Nat.div_add_mod (c - 1) W
    have hmlt : (c - 1) % W < W := Nat.mod_lt _ hW
    rw [Nat.mul_comm] at hdm
    refine ⟨by omega, le_min (by omega) hcL⟩

/-- When `W` does not divide `L - 1`, the index `(c-1)/W` of any coordinate
`c` of `[1, L]` is below the number of queried windows. -/
theorem div_lt_num_windows (L W c : Nat) (hW : 0 < W) (hc : 1 ≤ c) (hcL : c ≤ L)
    (hmod : (L - 1) % W ≠ 0) : (c - 1) / W < (L - 1 + W - 1) / W := by
  refine lt_of_le_of_lt (Nat.div_le_div_right (by omega : c - 1 ≤ L - 1)) ?_
  have h1 : (L - 1) / W + 1 ≤ (L - 1 + W - 1) / W := by
    rw [Nat.le_div_iff_mul_le hW, Nat.succ_mul]
    have hmod' : 1 ≤ (L - 1) % W := Nat.one_le_iff_ne_zero.mpr hmod
    have hdm := Nat.div_add_mod (L - 1) W
    have hmlt : (L - 1) % W < W := Nat.mod_lt _ hW
    rw [Nat.mul_comm] at hdm
    omega
  omega

/-- Under the same divisibility proviso, every coordinate of `[1, L]` lies in
exactly one queried window. -/
theorem coveringWindows_eq_one (L W c : Nat) (hW : 0 < W) (hc : 1 ≤ c) (hcL : c ≤ L)
    (hmod : (L - 1) % W ≠ 0) : coveringWindows L W c = 1 := by
  unfold coveringWindows windows pyRange
  rw [List.map_map, length_filter_of_map]
  refine length_filter_range_unique _ _ ((c - 1) / W)
    (div_lt_num_windows L W c hW hc hcL hmod) ?_
  intro k
  simp only [Function.comp_apply, Bool.and_eq_true, decide_eq_true_eq]
  exact window_hit_iff W L c k hW hc hcL

/-- C3 counterexample.  It is not true that for every chromosome length
`L ≥ 1` and window size `W ≥ 1` every coordinate of `[1, L]` lies in exactly
one queried window: at `L = 1` (with the code's `WINDOW_SIZE`),
`range(1, length, W)` is empty, no window is queried, and coordinate 1 is
covered zero times. -/
theorem window_coverage_cex :
    ¬ (∀ (L W c : Nat), 0 < W → 1 ≤ c → c ≤ L → coveringWindows L W c = 1) := by
  intro h
  have h1 := h 1 WINDOW_SIZE 1 (by decide) (le_refl 1) (le_refl 1)
  have h0 : coveringWindows 1 WINDOW_SIZE 1 = 0 := by decide
  omega

/-- C3 amended.  `genes_in_chrom` queries exactly the windows
`[1 + k*W, min (1 + (k+1)*W - 1) L]` for `k` below `ceil((L-1)/W)`; whenever
`W` does not divide `L - 1`, every coordinate of `[1, L]` lies in exactly one
of them (when `W` divides `L - 1` the final coordinate `L` lies in none); in
particular for `L = 2500000` and the configured `WINDOW_SIZE` exactly the 3
windows `[1,1000000]`, `[1000001,2000000]`, `[2000001,2500000]` are queried. -/
theorem window_coverage (L W c : Nat) (hW : 0 < W) (hc : 1 ≤ c) (hcL : c ≤ L)
    (hmod : (L - 1) % W ≠ 0) :
    windows L W = (List.range ((L - 1 + W - 1) / W)).map
      (fun k => (1 + k * W, min (1 + k * W + W - 1) L)) ∧
    coveringWindows L W c = 1 ∧
    windows 2500000 WINDOW_SIZE = [(1, 1000000), (1000001, 2000000), (2000001, 2500000)] := by
  refine ⟨?_, coveringWindows_eq_one L W c hW hc hcL hmod, by decide⟩
  simp [windows, pyRange, List.map_map, Function.comp_def]

/-- Witness for the amended C3 at the spec's concrete instance. -/
theorem window_coverage_witness :
    coveringWindows 2500000 WINDOW_SIZE 1500000 = 1 ∧
    windows 2500000 WINDOW_SIZE = [(1, 1000000), (1000001, 2000000), (2000001, 2500000)] :=
  ⟨(window_coverage 2500000 WINDOW_SIZE 1500000 (by decide) (by decide) (by decide)
      (by decide)).2.1,
   (window_coverage 2500000 WINDOW_SIZE 1500000 (by decide) (by decide) (by decide)
      (by decide)).2.2⟩

/-! ### Fate of a failing required GET -/

/-- C2.  In every run whose required assembly GET answers a non-success HTTP
status, the error is logged and the raised error carrying that status
propagates unrecovered through the fetch layer (`ensembl_get`,
`chromosomes_info`, `fetch_all_genes`); the first `main` invocation's
top-level `except` swallows it once, but the script then performs its second
`main` invocation, which re-runs the pipeline with no handler, so the error
reaches the interpreter uncaught and the process aborts with exit code 1 and
no output written. -/
theorem script_get_failure (utr_introns : List String) (assemblyResp : Resp (List Region))
    (windowFetch : String → Nat × Nat → Option (List GeneStub))
    (post : List String → Option (Resp (List (String × GeneRecord))))
    (h : respOk assemblyResp.status = false) :
    chromosomes_info assemblyResp =
      Except.error (HTTPError.httpError assemblyResp.status) ∧
    fetch_all_genes assemblyResp windowFetch =
      Except.error (HTTPError.httpError assemblyResp.status) ∧
    script_run true utr_introns assemblyResp windowFetch post =
      { exitCode := 1, outputWritten := false, errorLogged := true } := by
  have h1 : chromosomes_info assemblyResp =
      Except.error (HTTPError.httpError assemblyResp.status) := by
    simp [chromosomes_info, ensembl_get, h]
  have h2 : fetch_all_genes assemblyResp windowFetch =
      Except.error (HTTPError.httpError assemblyResp.status) := by
    simp [fetch_all_genes, h1]
  refine ⟨h1, h2, ?_⟩
  simp [script_run, main_run, main2_run, h2]

/-- Witness for C2 at a concrete failing GET (status 404). -/
theorem script_get_failure_witness :
    fetch_all_genes (⟨404, []⟩ : Resp (List Region)) (fun _ _ => none) =
      Except.error (HTTPError.httpError 404) ∧
    script_run true ["x"] ⟨404, []⟩ (fun _ _ => none) (fun _ => none) =
      { exitCode := 1, outputWritten := false, errorLogged := true } :=
  ⟨(script_get_failure ["x"] ⟨404, []⟩ (fun _ _ => none) (fun _ => none) (by decide)).2.1,
   (script_get_failure ["x"] ⟨404, []⟩ (fun _ _ => none) (fun _ => none) (by decide)).2.2⟩
